import Mathlib

/-!
Shallow embedding of the Tiered Inference Provider of the Agentic Farm Visit
application (class LLMProvider: methods stream, getStats, checkAvailability,
and the inline image-extraction blocks of stream), together with theorems
settling the specification claims about it.

The backends (geminiNano, llamaLocal, streamChat) and the platform probes
(Capacitor.isNativePlatform, navigator.onLine, getUserApiKey) are external
collaborators of the provider; they are modelled as an environment record
whose fields give each probe's answer and each backend stream's behaviour
(the fragments it yields, and whether it throws afterwards).  The provider
itself is embedded as a state-passing function from that environment and the
incoming mutable stats object to a result record that carries the fragments
the caller received, the error thrown (if any), the final stats object, the
trace of backend availability checks and generation attempts, and the list of
failure/skip reasons recorded into the stats along the way.
-/

namespace FarmVisit

/-- Provider tag of the stats object (field LLMProviderStats.provider). -/
inductive Provider where
  | geminiNano
  | llamaLocal
  | cloudApi
  | claudeApi
  | none
deriving DecidableEq

/-- User-selectable model option (type ModelOption of the source). -/
inductive ModelOption where
  | nano
  | gpt4oMini
  | llamaSmall
  | claudeCode
  | auto
deriving DecidableEq

/-- Stats object of the provider (interface LLMProviderStats).  The source
initialises it as the object literal with provider none and the other two
fields absent. -/
structure LLMProviderStats where
  provider : Provider
  fallbackReason : Option String := Option.none
  model : Option ModelOption := Option.none
deriving DecidableEq

/-- Initial stats object of the class field initialiser (provider none, no
fallbackReason, no model). -/
def initStats : LLMProviderStats := { provider := Provider.none }

/-- Behaviour of one backend stream for one call: the fragments it yields,
and, when error is present, the exception it throws after yielding them. -/
structure StreamOutcome where
  fragments : List String
  error : Option String
deriving DecidableEq

/-- Environment of one stream/checkAvailability call: answers of the platform
probes and behaviour of each backend.  An availability probe that throws is an
Except.error carrying the message of the thrown exception. -/
structure Env where
  isNativePlatform : Bool
  geminiAvailable : Except String Bool
  geminiStream : StreamOutcome
  llamaAvailable : Except String Bool
  llamaStream : StreamOutcome
  onLine : Bool
  hasKey : Bool
  cloudStream : StreamOutcome

/-- Observable backend interactions of one call: availability checks of the
two local backends and generation attempts of the three tiers. -/
inductive BackendEvent where
  | checkGemini
  | checkLlama
  | genGemini
  | genLlama
  | genCloud
deriving DecidableEq

/-- Result of one embedded stream call: fragments the caller received, the
thrown error (if the generator raised), the final stats object, the ordered
trace of backend events, and the ordered list of failure/skip reasons that
the call recorded into stats.fallbackReason. -/
structure StreamResult where
  fragments : List String
  error : Option String
  stats : LLMProviderStats
  events : List BackendEvent
  recorded : List String
deriving DecidableEq

/-- Source pattern: this.stats.fallbackReason = this.stats.fallbackReason ?
old + separator + msg : msg. -/
def appendReason : Option String → String → String
  | Option.none, m => m
  | Option.some r, m => r ++ "; " ++ m

/-- Aggregate error message built at the end of stream when every tier is
unavailable, skipped or failed (lines building errorMsg).  The source reads
this.stats.fallbackReason for the first sentence after resetting stats, so
the reason argument at the call site is the fresh stats object's (absent)
fallbackReason. -/
def aggregateErrorMsg (fallbackReason : Option String) (onLine hasKey : Bool) : String :=
  let head := "No LLM provider available. " ++ fallbackReason.getD "All providers failed"
    ++ ".\n\n"
  let tried := "**Tried (in order):**\n"
    ++ "1. Gemini Nano (Android 14+ with AICore) - ❌ Not available\n"
    ++ "2. Llama Local (Android 7+) - ❌ Not available\n"
  let tier3 :=
    if onLine then
      if hasKey then
        "3. Cloud API (ChatGPT/Claude) - ❌ Failed\n"
      else
        "3. Cloud API (ChatGPT/Claude Code) - ⏭️ Skipped (no API key provided)\n"
          ++ "\n💡 **Solution:** Set API key using 🔑 button to enable Cloud API fallback (ChatGPT 4o mini or Claude Code)."
    else
      "3. Cloud API (ChatGPT/Claude Code) - ⏭️ Skipped (device offline)\n"
  head ++ tried ++ tier3
    ++ "\n**To fix:** Install Gemini Nano (Android 14+) or Llama Local model, or set API key for Cloud API (ChatGPT 4o mini or Claude Code)."

/-- Skip reason recorded when the device is online but no API key is present. -/
def cloudSkipMsg : String := "Cloud API skipped (no API key provided)"

/-- Failure reason recorded when the Cloud API stream throws with message e. -/
def cloudFailMsg (e : String) : String := "Cloud API: " ++ e

/-- All-providers-failed tail of stream (auto mode): reset stats to provider
none (discarding the stats object carrying the accumulated reasons), build
the aggregate message from the fresh stats object and throw it. -/
def allFailedStage (env : Env) (frags : List String) (evs : List BackendEvent)
    (recorded : List String) (_preReset : LLMProviderStats) : StreamResult :=
  let s1 : LLMProviderStats := { provider := Provider.none }
  { fragments := frags
    error := Option.some (aggregateErrorMsg s1.fallbackReason env.onLine env.hasKey)
    stats := s1
    events := evs
    recorded := recorded }

/-- Priority 3 of auto mode: Cloud API, attempted only when online and a key
is present; a missing key or an offline device records a skip reason and
falls through to the aggregate failure. -/
def cloudStage (env : Env) (frags : List String) (evs : List BackendEvent)
    (recorded : List String) (s : LLMProviderStats) : StreamResult :=
  if env.onLine then
    if env.hasKey then
      let s1 : LLMProviderStats :=
        { provider := Provider.cloudApi, model := Option.some ModelOption.auto }
      match env.cloudStream.error with
      | Option.none =>
        { fragments := frags ++ env.cloudStream.fragments
          error := Option.none
          stats := s1
          events := evs ++ [BackendEvent.genCloud]
          recorded := recorded }
      | Option.some e =>
        let m := cloudFailMsg e
        allFailedStage env (frags ++ env.cloudStream.fragments)
          (evs ++ [BackendEvent.genCloud]) (recorded ++ [m])
          { s1 with fallbackReason := Option.some (appendReason s1.fallbackReason m) }
    else
      allFailedStage env frags evs (recorded ++ [cloudSkipMsg])
        { s with fallbackReason := Option.some (appendReason s.fallbackReason cloudSkipMsg) }
  else
    allFailedStage env frags evs (recorded ++ ["Device is offline"])
      { s with fallbackReason :=
          Option.some (appendReason s.fallbackReason "Device is offline") }

/-- Priority 2 of auto mode: Llama Local.  A throwing availability check or a
throwing stream is caught; the reason is appended to the current stats object
and control falls through to the cloud stage. -/
def llamaStage (env : Env) (frags : List String) (evs : List BackendEvent)
    (recorded : List String) (s : LLMProviderStats) : StreamResult :=
  match env.llamaAvailable with
  | Except.ok true =>
    let s1 : LLMProviderStats :=
      { provider := Provider.llamaLocal, model := Option.some ModelOption.auto }
    match env.llamaStream.error with
    | Option.none =>
      { fragments := frags ++ env.llamaStream.fragments
        error := Option.none
        stats := s1
        events := evs ++ [BackendEvent.checkLlama, BackendEvent.genLlama]
        recorded := recorded }
    | Option.some e =>
      let m := "Llama Local: " ++ e
      cloudStage env (frags ++ env.llamaStream.fragments)
        (evs ++ [BackendEvent.checkLlama, BackendEvent.genLlama]) (recorded ++ [m])
        { s1 with fallbackReason := Option.some (appendReason s1.fallbackReason m) }
  | Except.ok false =>
    cloudStage env frags (evs ++ [BackendEvent.checkLlama]) recorded s
  | Except.error e =>
    let m := "Llama Local: " ++ e
    cloudStage env frags (evs ++ [BackendEvent.checkLlama]) (recorded ++ [m])
      { s with fallbackReason := Option.some (appendReason s.fallbackReason m) }

/-- Auto-mode body of stream (the fallback chain at the end of the method):
Gemini Nano, then Llama Local, then Cloud API.  The yield* of each selected
backend sits inside the try block of its tier, so a stream that throws after
yielding fragments is caught like an availability failure: the reason is
recorded (line this.stats.fallbackReason = Gemini Nano: message overwrites
the field) and the next tier is tried. -/
def autoStream (env : Env) (s : LLMProviderStats) : StreamResult :=
  if env.isNativePlatform then
    match env.geminiAvailable with
    | Except.ok true =>
      let s1 : LLMProviderStats :=
        { provider := Provider.geminiNano, model := Option.some ModelOption.auto }
      match env.geminiStream.error with
      | Option.none =>
        { fragments := env.geminiStream.fragments
          error := Option.none
          stats := s1
          events := [BackendEvent.checkGemini, BackendEvent.genGemini]
          recorded := [] }
      | Option.some e =>
        let m := "Gemini Nano: " ++ e
        llamaStage env env.geminiStream.fragments
          [BackendEvent.checkGemini, BackendEvent.genGemini] [m]
          { s1 with fallbackReason := Option.some m }
    | Except.ok false =>
      llamaStage env [] [BackendEvent.checkGemini] [] s
    | Except.error e =>
      let m := "Gemini Nano: " ++ e
      llamaStage env [] [BackendEvent.checkGemini] [m]
        { s with fallbackReason := Option.some m }
  else
    llamaStage env [] [] [] s

/-- Explicit selection of Gemini Nano (selectedModel nano): a failed check or
a thrown error is rethrown as Gemini Nano unavailable: message; stats is only
written when the backend was actually selected. -/
def streamNano (env : Env) (s : LLMProviderStats) : StreamResult :=
  if env.isNativePlatform then
    match env.geminiAvailable with
    | Except.ok true =>
      let s1 : LLMProviderStats :=
        { provider := Provider.geminiNano, model := Option.some ModelOption.nano }
      match env.geminiStream.error with
      | Option.none =>
        { fragments := env.geminiStream.fragments
          error := Option.none
          stats := s1
          events := [BackendEvent.checkGemini, BackendEvent.genGemini]
          recorded := [] }
      | Option.some e =>
        { fragments := env.geminiStream.fragments
          error := Option.some ("Gemini Nano unavailable: " ++ e)
          stats := s1
          events := [BackendEvent.checkGemini, BackendEvent.genGemini]
          recorded := [] }
    | Except.ok false =>
      { fragments := []
        error := Option.some
          "Gemini Nano unavailable: Gemini Nano not available (requires Android 14+ with AICore)"
        stats := s
        events := [BackendEvent.checkGemini]
        recorded := [] }
    | Except.error e =>
      { fragments := []
        error := Option.some ("Gemini Nano unavailable: " ++ e)
        stats := s
        events := [BackendEvent.checkGemini]
        recorded := [] }
  else
    { fragments := []
      error := Option.some
        "Gemini Nano unavailable: Gemini Nano not available (requires Android 14+ with AICore)"
      stats := s
      events := []
      recorded := [] }

/-- Explicit selection of Llama Local (selectedModel llama-small). -/
def streamLlamaSmall (env : Env) (s : LLMProviderStats) : StreamResult :=
  match env.llamaAvailable with
  | Except.ok true =>
    let s1 : LLMProviderStats :=
      { provider := Provider.llamaLocal, model := Option.some ModelOption.llamaSmall }
    match env.llamaStream.error with
    | Option.none =>
      { fragments := env.llamaStream.fragments
        error := Option.none
        stats := s1
        events := [BackendEvent.checkLlama, BackendEvent.genLlama]
        recorded := [] }
    | Option.some e =>
      { fragments := env.llamaStream.fragments
        error := Option.some ("Llama Local unavailable: " ++ e)
        stats := s1
        events := [BackendEvent.checkLlama, BackendEvent.genLlama]
        recorded := [] }
  | Except.ok false =>
    { fragments := []
      error := Option.some
        "Llama Local unavailable: Llama Local not available (model not installed)"
      stats := s
      events := [BackendEvent.checkLlama]
      recorded := [] }
  | Except.error e =>
    { fragments := []
      error := Option.some ("Llama Local unavailable: " ++ e)
      stats := s
      events := [BackendEvent.checkLlama]
      recorded := [] }

/-- Explicit selection of ChatGPT 4o mini (selectedModel gpt-4o-mini):
offline or missing key throws before anything is attempted; otherwise stats
is set and the cloud stream is invoked, a thrown error being rethrown as
ChatGPT 4o mini error: message. -/
def streamGpt4oMini (env : Env) (s : LLMProviderStats) : StreamResult :=
  if env.onLine then
    if env.hasKey then
      let s1 : LLMProviderStats :=
        { provider := Provider.cloudApi, model := Option.some ModelOption.gpt4oMini }
      match env.cloudStream.error with
      | Option.none =>
        { fragments := env.cloudStream.fragments
          error := Option.none
          stats := s1
          events := [BackendEvent.genCloud]
          recorded := [] }
      | Option.some e =>
        { fragments := env.cloudStream.fragments
          error := Option.some ("ChatGPT 4o mini error: " ++ e)
          stats := s1
          events := [BackendEvent.genCloud]
          recorded := [] }
    else
      { fragments := []
        error := Option.some
          "ChatGPT 4o mini requires API key. Please set it using the 🔑 button."
        stats := s
        events := []
        recorded := [] }
  else
    { fragments := []
      error := Option.some "ChatGPT 4o mini requires internet connection"
      stats := s
      events := []
      recorded := [] }

/-- Explicit selection of Claude Code (selectedModel claude-code). -/
def streamClaudeCode (env : Env) (s : LLMProviderStats) : StreamResult :=
  if env.onLine then
    if env.hasKey then
      let s1 : LLMProviderStats :=
        { provider := Provider.claudeApi, model := Option.some ModelOption.claudeCode }
      match env.cloudStream.error with
      | Option.none =>
        { fragments := env.cloudStream.fragments
          error := Option.none
          stats := s1
          events := [BackendEvent.genCloud]
          recorded := [] }
      | Option.some e =>
        { fragments := env.cloudStream.fragments
          error := Option.some ("Claude Code error: " ++ e)
          stats := s1
          events := [BackendEvent.genCloud]
          recorded := [] }
    else
      { fragments := []
        error := Option.some
          "Claude Code requires API key. Please set it using the 🔑 button."
        stats := s
        events := []
        recorded := [] }
  else
    { fragments := []
      error := Option.some "Claude Code requires internet connection"
      stats := s
      events := []
      recorded := [] }

/-- Method stream of class LLMProvider: const selectedModel = input.model or
auto, then the explicit branch for each model option, the auto fallback chain
otherwise. -/
def stream (env : Env) (model? : Option ModelOption) (s : LLMProviderStats) :
    StreamResult :=
  match model?.getD ModelOption.auto with
  | ModelOption.nano => streamNano env s
  | ModelOption.llamaSmall => streamLlamaSmall env s
  | ModelOption.gpt4oMini => streamGpt4oMini env s
  | ModelOption.claudeCode => streamClaudeCode env s
  | ModelOption.auto => autoStream env s

/-- Result record of method checkAvailability. -/
structure AvailabilityResults where
  geminiNano : Bool
  llamaLocal : Bool
  cloudAvailable : Bool
deriving DecidableEq

/-- Try/catch-ignore around an availability probe: a thrown probe leaves the
corresponding result field at its initial false. -/
def probeCaught : Except String Bool → Bool
  | Except.ok b => b
  | Except.error _ => false

/-- Method checkAvailability of class LLMProvider: probes the two local
backends (ignoring thrown errors) and reports navigator.onLine for the cloud;
the method body never reads or writes this.stats, so the stats object is
returned unchanged. -/
def checkAvailability (env : Env) (s : LLMProviderStats) :
    AvailabilityResults × LLMProviderStats :=
  ({ geminiNano := probeCaught env.geminiAvailable
     llamaLocal := probeCaught env.llamaAvailable
     cloudAvailable := env.onLine }, s)

/-- State after n consecutive checkAvailability calls with no intervening
stream call. -/
def iterateCheck (env : Env) : Nat → LLMProviderStats → LLMProviderStats
  | 0, s => s
  | n + 1, s => iterateCheck env n (checkAvailability env s).2

/-- Tiny object heap for the aliasing claim about getStats: addresses are
naturals, each holding a stats object; next is the first unallocated
address. -/
structure ObjHeap where
  objs : Nat → LLMProviderStats
  next : Nat

/-- Write of a stats object at an address (a caller mutating an object it
holds a reference to). -/
def heapWrite (h : ObjHeap) (r : Nat) (v : LLMProviderStats) : ObjHeap :=
  { h with objs := fun n => if n = r then v else h.objs n }

/-- Method getStats of class LLMProvider: return open-brace spread this.stats
close-brace, i.e. allocate a fresh object whose fields are copied from the
internal stats object, and hand the caller a reference to the fresh object. -/
def getStats (h : ObjHeap) (statsRef : Nat) : Nat × ObjHeap :=
  (h.next,
   { objs := fun n => if n = h.next then h.objs statsRef else h.objs n
     next := h.next + 1 })

/-- Current in-progress capture of the visit context (field current); only
the field the embedded image extraction reads is modelled. -/
structure CurrentCapture where
  photo : Option String
deriving DecidableEq

/-- One saved visit record of visitContext.allVisits; only the field the
embedded image extraction reads is modelled. -/
structure VisitEntry where
  photo_data : Option String
deriving DecidableEq

/-- Latest saved visit of visitContext.latest; only the field the embedded
image extraction reads is modelled. -/
structure LatestVisit where
  photo_data : Option String
deriving DecidableEq

/-- Visit context of an LLMInput (field visitContext). -/
structure VisitContext where
  current : Option CurrentCapture
  allVisits : Option (List VisitEntry)
  latest : Option LatestVisit
deriving DecidableEq

/-- JavaScript truthiness of an optional string field: absent and empty are
falsy. -/
def jsTruthy : Option String → Bool
  | Option.none => false
  | Option.some s => !s.isEmpty

/-- Source pattern if (x) images.push(x): push an optional string when
truthy. -/
def pushTruthy (acc : List String) (x : Option String) : List String :=
  match x with
  | Option.some p => if p.isEmpty then acc else acc ++ [p]
  | Option.none => acc

/-- Source pattern if (visit.photo_data and not images.includes(...)) push:
push a visit photo when truthy and not already present (dedup by string
value). -/
def pushVisitPhoto (acc : List String) (x : Option String) : List String :=
  match x with
  | Option.some p => if !p.isEmpty && !acc.contains p then acc ++ [p] else acc
  | Option.none => acc

/-- Image-extraction block of stream (the images / imageDataUrls arrays built
before each backend call): current photo first, then each saved visit photo
in list order if not already present, then visitContext.latest.photo_data
only when the array is still empty. -/
def extractImageDataUrls (ctx : Option VisitContext) : List String :=
  let images : List String := pushTruthy []
    ((ctx.bind fun c => c.current).bind fun cur => cur.photo)
  let images : List String :=
    match ctx.bind fun c => c.allVisits with
    | Option.some vs => vs.foldl (fun acc v => pushVisitPhoto acc v.photo_data) images
    | Option.none => images
  if images.length = 0 then
    pushTruthy images ((ctx.bind fun c => c.latest).bind fun l => l.photo_data)
  else
    images

/-- Image-reference list as the specification sentence for claim C7 words it:
current.photo first if present, then the photos of allRecords in list order
deduplicated, falling back to latestRecord.photo only if allRecords is
absent. -/
def specImageRefsC7 (ctx : Option VisitContext) : List String :=
  let images := pushTruthy []
    ((ctx.bind fun c => c.current).bind fun cur => cur.photo)
  match ctx.bind fun c => c.allVisits with
  | Option.some vs => vs.foldl (fun acc v => pushVisitPhoto acc v.photo_data) images
  | Option.none =>
    pushVisitPhoto images ((ctx.bind fun c => c.latest).bind fun l => l.photo_data)

/-- Image-reference list as amended for claim C7: identical to the claim
except that the latest-photo fallback applies exactly when the list is still
empty after the current photo and the allRecords pass (even when allRecords
is present but contributed no photo). -/
def specImageRefsC7Amended (ctx : Option VisitContext) : List String :=
  let base := pushTruthy []
    ((ctx.bind fun c => c.current).bind fun cur => cur.photo)
  let hist :=
    ((ctx.bind fun c => c.allVisits).getD []).foldl
      (fun acc v => pushVisitPhoto acc v.photo_data) base
  if hist = [] then
    pushTruthy [] ((ctx.bind fun c => c.latest).bind fun l => l.photo_data)
  else
    hist

/-- Property that string s starts with string p. -/
def strStarts (p s : String) : Prop := ∃ r, s = p ++ r

/-- Backend name opening every error message thrown by an explicit (non-auto)
selection whose backend is unavailable. -/
def backendErrName : ModelOption → String
  | ModelOption.nano => "Gemini Nano"
  | ModelOption.llamaSmall => "Llama Local"
  | ModelOption.gpt4oMini => "ChatGPT 4o mini"
  | ModelOption.claudeCode => "Claude Code"
  | ModelOption.auto => ""

/-- Check event belonging to an explicitly selected backend (the cloud models
have no availability-check event: their preconditions are the online and key
probes). -/
def ownCheck : ModelOption → BackendEvent
  | ModelOption.nano => BackendEvent.checkGemini
  | ModelOption.llamaSmall => BackendEvent.checkLlama
  | _ => BackendEvent.genCloud

/-- Unavailability of an explicitly selected backend, as the source tests it:
the local backends by their availability probe (a throwing probe counts as
unavailable), the cloud models by the online and key preconditions. -/
def explicitUnavailable (env : Env) : ModelOption → Prop
  | ModelOption.nano =>
    env.isNativePlatform = false ∨ env.geminiAvailable ≠ Except.ok true
  | ModelOption.llamaSmall => env.llamaAvailable ≠ Except.ok true
  | ModelOption.gpt4oMini => env.onLine = false ∨ env.hasKey = false
  | ModelOption.claudeCode => env.onLine = false ∨ env.hasKey = false
  | ModelOption.auto => False

/-- Stream outcome that yields the fragments of l and completes. -/
def okStream (l : List String) : StreamOutcome :=
  { fragments := l, error := Option.none }

/-- Stream outcome that yields the fragments of l and then throws e. -/
def errStream (l : List String) (e : String) : StreamOutcome :=
  { fragments := l, error := Option.some e }

/-- Base environment for concrete runs: nothing available, offline, no key. -/
def baseEnv : Env :=
  { isNativePlatform := false
    geminiAvailable := Except.ok false
    geminiStream := okStream []
    llamaAvailable := Except.ok false
    llamaStream := okStream []
    onLine := false
    hasKey := false
    cloudStream := okStream [] }

/-- Strings that differ at character index i stay different after appending
arbitrary suffixes to both. -/
theorem strAppend_ne_of_get (p q x y : String) (i : Nat)
    (hip : i < p.data.length) (hiq : i < q.data.length)
    (hne : p.data[i]? ≠ q.data[i]?) : p ++ x ≠ q ++ y := by
  intro h
  apply hne
  have hd : p.data ++ x.data = q.data ++ y.data := by
    simpa [String.data_append] using congrArg String.data h
  calc p.data[i]? = (p.data ++ x.data)[i]? := (List.getElem?_append_left hip).symm
    _ = (q.data ++ y.data)[i]? := by rw [hd]
    _ = q.data[i]? := List.getElem?_append_left hiq

/-- A string that differs from q at an index inside q is not q with a suffix
appended. -/
theorem strNe_append (p q y : String) (i : Nat) (hiq : i < q.data.length)
    (hne : p.data[i]? ≠ q.data[i]?) : p ≠ q ++ y := by
  intro h
  apply hne
  have hd : p.data = q.data ++ y.data := by
    simpa [String.data_append] using congrArg String.data h
  calc p.data[i]? = (q.data ++ y.data)[i]? := by rw [hd]
    _ = q.data[i]? := List.getElem?_append_left hiq

/-- A Cloud API failure entry never coincides with a Gemini Nano entry. -/
theorem cloudFail_ne_gem (e f : String) : cloudFailMsg e ≠ "Gemini Nano: " ++ f := by
  unfold cloudFailMsg
  exact strAppend_ne_of_get "Cloud API: " "Gemini Nano: " e f 0
    (by decide) (by decide) (by decide)

/-- A Cloud API failure entry never coincides with a Llama Local entry. -/
theorem cloudFail_ne_llama (e f : String) : cloudFailMsg e ≠ "Llama Local: " ++ f := by
  unfold cloudFailMsg
  exact strAppend_ne_of_get "Cloud API: " "Llama Local: " e f 0
    (by decide) (by decide) (by decide)

/-- The skip entry recorded for a missing key is never a Cloud API failure
entry: the wording of a skip differs from the wording of a failure. -/
theorem cloudSkip_ne_fail (e : String) : cloudSkipMsg ≠ cloudFailMsg e := by
  unfold cloudSkipMsg cloudFailMsg
  exact strNe_append "Cloud API skipped (no API key provided)" "Cloud API: " e 9
    (by decide) (by decide)

/-- A Cloud API failure entry never coincides with the offline skip entry. -/
theorem cloudFail_ne_offline (e : String) : cloudFailMsg e ≠ "Device is offline" := by
  unfold cloudFailMsg
  intro h
  exact strNe_append "Device is offline" "Cloud API: " e 0 (by decide) (by decide) h.symm

/-- C9: checkAvailability is a non-mutating probe: one call returns the stats
object unchanged, and any number of consecutive calls with no intervening
stream call leaves the ProviderState exactly as it was. -/
theorem checkAvailability_preserves_state (env : Env) (n : Nat)
    (s : LLMProviderStats) :
    (checkAvailability env s).2 = s ∧ iterateCheck env n s = s := by
  refine ⟨rfl, ?_⟩
  induction n generalizing s with
  | zero => rfl
  | succ k ih => simpa [iterateCheck, checkAvailability] using ih s

/-- C10: getStats returns a shallow copy: the call itself leaves every
allocated object (in particular the internal stats object) unchanged, the
returned reference holds a copy of the internal value, is distinct from the
internal reference, and mutating the returned object leaves both the internal
object and the result of a later getStats call unchanged. -/
theorem getStats_is_shallow_copy (h : ObjHeap) (statsRef : Nat)
    (hv : statsRef < h.next) (v : LLMProviderStats) :
    (∀ r < h.next, (getStats h statsRef).2.objs r = h.objs r)
    ∧ (getStats h statsRef).2.objs (getStats h statsRef).1 = h.objs statsRef
    ∧ (getStats h statsRef).1 ≠ statsRef
    ∧ (heapWrite (getStats h statsRef).2 (getStats h statsRef).1 v).objs statsRef
        = h.objs statsRef
    ∧ (getStats (heapWrite (getStats h statsRef).2 (getStats h statsRef).1 v)
          statsRef).2.objs
        (getStats (heapWrite (getStats h statsRef).2 (getStats h statsRef).1 v)
          statsRef).1
        = h.objs statsRef := by
  have hne : statsRef ≠ h.next := Nat.ne_of_lt hv
  refine ⟨?_, ?_, ?_, ?_, ?_⟩
  · intro r hr
    have : r ≠ h.next := Nat.ne_of_lt hr
    simp [getStats, this]
  · simp [getStats]
  · exact fun hc => hne hc.symm
  · simp [getStats, heapWrite, hne]
  · simp [getStats, heapWrite, hne]

/-- Witness for the getStats shallow-copy theorem at a one-object heap. -/
theorem getStats_is_shallow_copy_witness :
    (0 : Nat) < 1 ∧
    ((∀ r < ({ objs := fun _ => initStats, next := 1 } : ObjHeap).next,
        (getStats { objs := fun _ => initStats, next := 1 } 0).2.objs r
          = ({ objs := fun _ => initStats, next := 1 } : ObjHeap).objs r)
      ∧ (getStats { objs := fun _ => initStats, next := 1 } 0).2.objs
          (getStats { objs := fun _ => initStats, next := 1 } 0).1
          = ({ objs := fun _ => initStats, next := 1 } : ObjHeap).objs 0
      ∧ (getStats { objs := fun _ => initStats, next := 1 } 0).1 ≠ 0
      ∧ (heapWrite (getStats { objs := fun _ => initStats, next := 1 } 0).2
            (getStats { objs := fun _ => initStats, next := 1 } 0).1
            { provider := Provider.cloudApi }).objs 0
          = ({ objs := fun _ => initStats, next := 1 } : ObjHeap).objs 0
      ∧ (getStats (heapWrite (getStats { objs := fun _ => initStats, next := 1 } 0).2
            (getStats { objs := fun _ => initStats, next := 1 } 0).1
            { provider := Provider.cloudApi }) 0).2.objs
          (getStats (heapWrite (getStats { objs := fun _ => initStats, next := 1 } 0).2
            (getStats { objs := fun _ => initStats, next := 1 } 0).1
            { provider := Provider.cloudApi }) 0).1
          = ({ objs := fun _ => initStats, next := 1 } : ObjHeap).objs 0) :=
  ⟨Nat.zero_lt_one,
   getStats_is_shallow_copy { objs := fun _ => initStats, next := 1 } 0
     Nat.zero_lt_one { provider := Provider.cloudApi }⟩

/-- Clean failure of an explicitly selected, unavailable backend: an error
naming the backend, no fragments, stats untouched, nothing recorded, and no
backend event beyond the selected backend's own availability check. -/
def explicitFailsCleanly (env : Env) (m : ModelOption) (s : LLMProviderStats) : Prop :=
  (∃ msg, (stream env (Option.some m) s).error = Option.some msg
      ∧ strStarts (backendErrName m) msg)
  ∧ (stream env (Option.some m) s).fragments = []
  ∧ (stream env (Option.some m) s).stats = s
  ∧ (stream env (Option.some m) s).recorded = []
  ∧ ∀ e ∈ (stream env (Option.some m) s).events, e = ownCheck m

/-- Helper for claim C4, case nano. -/
theorem nano_unavailable_clean (env : Env) (s : LLMProviderStats)
    (hu : explicitUnavailable env ModelOption.nano) :
    explicitFailsCleanly env ModelOption.nano s := by
  unfold explicitFailsCleanly
  have hlit : strStarts (backendErrName ModelOption.nano)
      "Gemini Nano unavailable: Gemini Nano not available (requires Android 14+ with AICore)" :=
    ⟨" unavailable: Gemini Nano not available (requires Android 14+ with AICore)", rfl⟩
  cases hnat : env.isNativePlatform with
  | false =>
    have hred : stream env (Option.some ModelOption.nano) s =
        { fragments := []
          error := Option.some
            "Gemini Nano unavailable: Gemini Nano not available (requires Android 14+ with AICore)"
          stats := s
          events := []
          recorded := [] } := by
      simp [stream, streamNano, hnat]
    rw [hred]
    exact ⟨⟨_, rfl, hlit⟩, rfl, rfl, rfl, fun e he => (List.not_mem_nil e he).elim⟩
  | true =>
    have hgem : env.geminiAvailable ≠ Except.ok true := by
      rcases hu with hnat2 | hgem
      · rw [hnat] at hnat2; exact absurd hnat2 (by simp)
      · exact hgem
    cases hga : env.geminiAvailable with
    | ok b =>
      cases b with
      | true => exact absurd hga hgem
      | false =>
        have hred : stream env (Option.some ModelOption.nano) s =
            { fragments := []
              error := Option.some
                "Gemini Nano unavailable: Gemini Nano not available (requires Android 14+ with AICore)"
              stats := s
              events := [BackendEvent.checkGemini]
              recorded := [] } := by
          simp [stream, streamNano, hnat, hga]
        rw [hred]
        refine ⟨⟨_, rfl, hlit⟩, rfl, rfl, rfl, ?_⟩
        intro e he
        simpa [ownCheck] using List.mem_singleton.mp he
    | error e =>
      have hred : stream env (Option.some ModelOption.nano) s =
          { fragments := []
            error := Option.some ("Gemini Nano unavailable: " ++ e)
            stats := s
            events := [BackendEvent.checkGemini]
            recorded := [] } := by
        simp [stream, streamNano, hnat, hga]
      rw [hred]
      refine ⟨⟨_, rfl, ⟨" unavailable: " ++ e, ?_⟩⟩, rfl, rfl, rfl, ?_⟩
      · rfl
      · intro ev hev
        simpa [ownCheck] using List.mem_singleton.mp hev

/-- Helper for claim C4, case llama-small. -/
theorem llamaSmall_unavailable_clean (env : Env) (s : LLMProviderStats)
    (hu : explicitUnavailable env ModelOption.llamaSmall) :
    explicitFailsCleanly env ModelOption.llamaSmall s := by
  unfold explicitFailsCleanly
  cases hla : env.llamaAvailable with
  | ok b =>
    cases b with
    | true => exact absurd hla hu
    | false =>
      have hred : stream env (Option.some ModelOption.llamaSmall) s =
          { fragments := []
            error := Option.some
              "Llama Local unavailable: Llama Local not available (model not installed)"
            stats := s
            events := [BackendEvent.checkLlama]
            recorded := [] } := by
        simp [stream, streamLlamaSmall, hla]
      rw [hred]
      refine ⟨⟨_, rfl,
        ⟨" unavailable: Llama Local not available (model not installed)", rfl⟩⟩,
        rfl, rfl, rfl, ?_⟩
      intro e he
      simpa [ownCheck] using List.mem_singleton.mp he
  | error e =>
    have hred : stream env (Option.some ModelOption.llamaSmall) s =
        { fragments := []
          error := Option.some ("Llama Local unavailable: " ++ e)
          stats := s
          events := [BackendEvent.checkLlama]
          recorded := [] } := by
      simp [stream, streamLlamaSmall, hla]
    rw [hred]
    refine ⟨⟨_, rfl, ⟨" unavailable: " ++ e, ?_⟩⟩, rfl, rfl, rfl, ?_⟩
    · rfl
    · intro ev hev
      simpa [ownCheck] using List.mem_singleton.mp hev

/-- Helper for claim C4, cases gpt-4o-mini and claude-code: both cloud models
share the online and key preconditions. -/
theorem cloud_unavailable_clean (env : Env) (s : LLMProviderStats)
    (m : ModelOption) (hm : m = ModelOption.gpt4oMini ∨ m = ModelOption.claudeCode)
    (hu : env.onLine = false ∨ env.hasKey = false) :
    explicitFailsCleanly env m s := by
  unfold explicitFailsCleanly
  have honline : env.onLine = false ∨ (env.onLine = true ∧ env.hasKey = false) := by
    rcases hu with h | h
    · exact Or.inl h
    · cases ho : env.onLine with
      | false => exact Or.inl rfl
      | true => exact Or.inr ⟨rfl, h⟩
  rcases hm with hm | hm <;> subst hm <;> rcases honline with ho | ⟨ho, hk⟩
  · have hred : stream env (Option.some ModelOption.gpt4oMini) s =
        { fragments := []
          error := Option.some "ChatGPT 4o mini requires internet connection"
          stats := s
          events := []
          recorded := [] } := by
      simp [stream, streamGpt4oMini, ho]
    rw [hred]
    exact ⟨⟨_, rfl, ⟨" requires internet connection", rfl⟩⟩, rfl, rfl, rfl,
      fun e he => (List.not_mem_nil e he).elim⟩
  · have hred : stream env (Option.some ModelOption.gpt4oMini) s =
        { fragments := []
          error := Option.some
            "ChatGPT 4o mini requires API key. Please set it using the 🔑 button."
          stats := s
          events := []
          recorded := [] } := by
      simp [stream, streamGpt4oMini, ho, hk]
    rw [hred]
    exact ⟨⟨_, rfl,
      ⟨" requires API key. Please set it using the 🔑 button.", rfl⟩⟩, rfl, rfl, rfl,
      fun e he => (List.not_mem_nil e he).elim⟩
  · have hred : stream env (Option.some ModelOption.claudeCode) s =
        { fragments := []
          error := Option.some "Claude Code requires internet connection"
          stats := s
          events := []
          recorded := [] } := by
      simp [stream, streamClaudeCode, ho]
    rw [hred]
    exact ⟨⟨_, rfl, ⟨" requires internet connection", rfl⟩⟩, rfl, rfl, rfl,
      fun e he => (List.not_mem_nil e he).elim⟩
  · have hred : stream env (Option.some ModelOption.claudeCode) s =
        { fragments := []
          error := Option.some
            "Claude Code requires API key. Please set it using the 🔑 button."
          stats := s
          events := []
          recorded := [] } := by
      simp [stream, streamClaudeCode, ho, hk]
    rw [hred]
    exact ⟨⟨_, rfl,
      ⟨" requires API key. Please set it using the 🔑 button.", rfl⟩⟩, rfl, rfl, rfl,
      fun e he => (List.not_mem_nil e he).elim⟩

/-- C4: a stream call with an explicit (non-auto) selected backend that is
unavailable raises immediately with a backend-specific error, attempts no
other tier's availability check or generation, and leaves the accumulated
failure reasons empty. -/
theorem stream_explicit_unavailable (env : Env) (m : ModelOption)
    (s : LLMProviderStats) (hm : m ≠ ModelOption.auto)
    (hu : explicitUnavailable env m) (hs : s.fallbackReason = Option.none) :
    explicitFailsCleanly env m s
    ∧ (stream env (Option.some m) s).stats.fallbackReason = Option.none := by
  have hclean : explicitFailsCleanly env m s := by
    cases m with
    | auto => exact absurd rfl hm
    | nano => exact nano_unavailable_clean env s hu
    | llamaSmall => exact llamaSmall_unavailable_clean env s hu
    | gpt4oMini => exact cloud_unavailable_clean env s _ (Or.inl rfl) hu
    | claudeCode => exact cloud_unavailable_clean env s _ (Or.inr rfl) hu
  refine ⟨hclean, ?_⟩
  rw [hclean.2.2.1, hs]

/-- Witness for claim C4 at a concrete run: explicit selection of Gemini Nano
in a non-native environment. -/
theorem stream_explicit_unavailable_witness :
    ModelOption.nano ≠ ModelOption.auto
    ∧ explicitUnavailable baseEnv ModelOption.nano
    ∧ initStats.fallbackReason = Option.none
    ∧ (explicitFailsCleanly baseEnv ModelOption.nano initStats
       ∧ (stream baseEnv (Option.some ModelOption.nano) initStats).stats.fallbackReason
           = Option.none) :=
  ⟨by decide, Or.inl rfl, rfl,
   stream_explicit_unavailable baseEnv ModelOption.nano initStats
     (by decide) (Or.inl rfl) rfl⟩

/-- C3: auto mode attempts backends in the fixed priority order Gemini Nano
(OnDevice), Llama Local (LocalOffline), Cloud API (Remote), stopping at the
first tier whose availability check passes; in particular, whenever the
OnDevice check passes (native platform and a true probe) and its stream
completes, OnDevice serves the request whatever the other tiers would have
answered, and no other tier is checked or invoked. -/
theorem autoStream_priority_order (env : Env) (s : LLMProviderStats) :
    (env.isNativePlatform = true → env.geminiAvailable = Except.ok true →
      env.geminiStream.error = Option.none →
      autoStream env s =
        { fragments := env.geminiStream.fragments
          error := Option.none
          stats := { provider := Provider.geminiNano, model := Option.some ModelOption.auto }
          events := [BackendEvent.checkGemini, BackendEvent.genGemini]
          recorded := [] })
    ∧ (env.isNativePlatform = true → env.geminiAvailable = Except.ok false →
        env.llamaAvailable = Except.ok true → env.llamaStream.error = Option.none →
        autoStream env s =
          { fragments := env.llamaStream.fragments
            error := Option.none
            stats := { provider := Provider.llamaLocal, model := Option.some ModelOption.auto }
            events := [BackendEvent.checkGemini, BackendEvent.checkLlama,
              BackendEvent.genLlama]
            recorded := [] })
    ∧ (env.isNativePlatform = true → env.geminiAvailable = Except.ok false →
        env.llamaAvailable = Except.ok false → env.onLine = true → env.hasKey = true →
        env.cloudStream.error = Option.none →
        autoStream env s =
          { fragments := env.cloudStream.fragments
            error := Option.none
            stats := { provider := Provider.cloudApi, model := Option.some ModelOption.auto }
            events := [BackendEvent.checkGemini, BackendEvent.checkLlama,
              BackendEvent.genCloud]
            recorded := [] }) := by
  refine ⟨?_, ?_, ?_⟩
  · intro h1 h2 h3
    simp [autoStream, h1, h2, h3]
  · intro h1 h2 h3 h4
    simp [autoStream, llamaStage, h1, h2, h3, h4]
  · intro h1 h2 h3 h4 h5 h6
    simp [autoStream, llamaStage, cloudStage, h1, h2, h3, h4, h5, h6]

/-- Environment where every tier could serve: OnDevice must win. -/
def envAllAvailable : Env :=
  { baseEnv with
    isNativePlatform := true
    geminiAvailable := Except.ok true
    geminiStream := okStream ["g1", "g2"]
    llamaAvailable := Except.ok true
    llamaStream := okStream ["l1"]
    onLine := true
    hasKey := true
    cloudStream := okStream ["c1"] }

/-- Environment where only Llama Local and the cloud could serve. -/
def envLlamaWins : Env :=
  { envAllAvailable with geminiAvailable := Except.ok false }

/-- Environment where only the cloud can serve. -/
def envCloudWins : Env :=
  { envLlamaWins with llamaAvailable := Except.ok false }

/-- Witness for claim C3: the three priority scenarios at concrete
environments in which every lower tier is also available. -/
theorem autoStream_priority_order_witness :
    (autoStream envAllAvailable initStats =
      { fragments := ["g1", "g2"]
        error := Option.none
        stats := { provider := Provider.geminiNano, model := Option.some ModelOption.auto }
        events := [BackendEvent.checkGemini, BackendEvent.genGemini]
        recorded := [] })
    ∧ (autoStream envLlamaWins initStats =
      { fragments := ["l1"]
        error := Option.none
        stats := { provider := Provider.llamaLocal, model := Option.some ModelOption.auto }
        events := [BackendEvent.checkGemini, BackendEvent.checkLlama, BackendEvent.genLlama]
        recorded := [] })
    ∧ (autoStream envCloudWins initStats =
      { fragments := ["c1"]
        error := Option.none
        stats := { provider := Provider.cloudApi, model := Option.some ModelOption.auto }
        events := [BackendEvent.checkGemini, BackendEvent.checkLlama, BackendEvent.genCloud]
        recorded := [] }) :=
  ⟨(autoStream_priority_order envAllAvailable initStats).1 rfl rfl rfl,
   (autoStream_priority_order envLlamaWins initStats).2.1 rfl rfl rfl rfl,
   (autoStream_priority_order envCloudWins initStats).2.2 rfl rfl rfl rfl rfl rfl⟩

/-- Environment for the C1 counterexample: Gemini Nano is selected, yields
one fragment and then throws; Llama Local is available and completes. -/
def envMidStream : Env :=
  { baseEnv with
    isNativePlatform := true
    geminiAvailable := Except.ok true
    geminiStream := errStream ["A"] "boom"
    llamaAvailable := Except.ok true
    llamaStream := okStream ["B"] }

/-- C1 counterexample: the claim says a mid-flight error (after fragment A
was yielded) propagates to the caller as-is with no other tier attempted; in
the code the yield of the selected backend sits inside its tier's try block,
so the error is caught, Llama Local is attempted, and the caller sees A
followed by B with no error at all. -/
theorem autoStream_midstream_fallback_cex :
    (autoStream envMidStream initStats).fragments = ["A", "B"]
    ∧ (autoStream envMidStream initStats).error = Option.none
    ∧ BackendEvent.genLlama ∈ (autoStream envMidStream initStats).events
    ∧ (autoStream envMidStream initStats).stats.provider = Provider.llamaLocal := by
  refine ⟨rfl, rfl, ?_, rfl⟩
  decide

/-- C1 amended: a mid-flight error of the selected backend's stream does not
propagate; it is caught like a pre-stream failure, recorded as a fallback
reason, and the next tier is attempted, its fragments following the ones the
failing backend already yielded. -/
theorem autoStream_midstream_fallback (env : Env) (s : LLMProviderStats)
    (e : String) (hn : env.isNativePlatform = true)
    (hg : env.geminiAvailable = Except.ok true)
    (he : env.geminiStream.error = Option.some e)
    (hl : env.llamaAvailable = Except.ok true)
    (hle : env.llamaStream.error = Option.none) :
    (autoStream env s).fragments = env.geminiStream.fragments ++ env.llamaStream.fragments
    ∧ (autoStream env s).error = Option.none
    ∧ (autoStream env s).stats.provider = Provider.llamaLocal
    ∧ ("Gemini Nano: " ++ e) ∈ (autoStream env s).recorded
    ∧ BackendEvent.genLlama ∈ (autoStream env s).events := by
  simp [autoStream, llamaStage, hn, hg, he, hl, hle]

/-- Witness for the amended C1 theorem at the counterexample environment. -/
theorem autoStream_midstream_fallback_witness :
    ((autoStream envMidStream initStats).fragments
        = envMidStream.geminiStream.fragments ++ envMidStream.llamaStream.fragments
      ∧ (autoStream envMidStream initStats).error = Option.none
      ∧ (autoStream envMidStream initStats).stats.provider = Provider.llamaLocal
      ∧ ("Gemini Nano: " ++ "boom") ∈ (autoStream envMidStream initStats).recorded
      ∧ BackendEvent.genLlama ∈ (autoStream envMidStream initStats).events) :=
  autoStream_midstream_fallback envMidStream initStats "boom" rfl rfl rfl rfl rfl

/-- Environment of the first call of the C2 counterexample: explicit ChatGPT
4o mini selection that succeeds. -/
def envCloudOk : Env :=
  { baseEnv with onLine := true, hasKey := true, cloudStream := okStream ["ok"] }

/-- Stats object left by the first call of the C2 counterexample. -/
def statsAfterCloudCall : LLMProviderStats :=
  (stream envCloudOk (Option.some ModelOption.gpt4oMini) initStats).stats

/-- C2 counterexample: the claim says ProviderState is reset at the start of
every stream call, so getStats never shows a backend tag left over from an
earlier call.  In the code there is no reset: after a successful explicit
cloud call, a second call selecting Gemini Nano on a non-native platform
fails its availability check, selects no backend, and leaves the provider
tag of the first call (cloud-api) observable, where reset-at-start semantics
(the same second call run from the initial state) would leave none. -/
theorem stream_no_reset_cex :
    statsAfterCloudCall.provider = Provider.cloudApi
    ∧ (stream baseEnv (Option.some ModelOption.nano) statsAfterCloudCall).stats.provider
        = Provider.cloudApi
    ∧ (stream baseEnv (Option.some ModelOption.nano) statsAfterCloudCall).events = []
    ∧ (stream baseEnv (Option.some ModelOption.nano) statsAfterCloudCall).error
        ≠ Option.none
    ∧ (stream baseEnv (Option.some ModelOption.nano) initStats).stats.provider
        = Provider.none := by
  refine ⟨rfl, rfl, rfl, ?_, rfl⟩
  decide

/-- C2 amended: ProviderState is not reset at the start of a stream call; it
is only overwritten when a backend is selected or when every tier has been
exhausted.  Consequently a call whose explicit backend is unavailable leaves
the ProviderState of the previous call untouched and observable. -/
theorem stream_explicit_fail_preserves_stats (env : Env) (m : ModelOption)
    (s : LLMProviderStats) (hm : m ≠ ModelOption.auto)
    (hu : explicitUnavailable env m) :
    (stream env (Option.some m) s).stats = s
    ∧ (stream env (Option.some m) s).error ≠ Option.none := by
  have hclean : explicitFailsCleanly env m s := by
    cases m with
    | auto => exact absurd rfl hm
    | nano => exact nano_unavailable_clean env s hu
    | llamaSmall => exact llamaSmall_unavailable_clean env s hu
    | gpt4oMini => exact cloud_unavailable_clean env s _ (Or.inl rfl) hu
    | claudeCode => exact cloud_unavailable_clean env s _ (Or.inr rfl) hu
  refine ⟨hclean.2.2.1, ?_⟩
  obtain ⟨msg, hmsg, -⟩ := hclean.1
  rw [hmsg]
  exact fun h => Option.noConfusion h

/-- Witness for the amended C2 theorem: explicit Gemini Nano selection on a
non-native platform preserves the stats object of the previous cloud call. -/
theorem stream_explicit_fail_preserves_stats_witness :
    ((stream baseEnv (Option.some ModelOption.nano) statsAfterCloudCall).stats
        = statsAfterCloudCall
      ∧ (stream baseEnv (Option.some ModelOption.nano) statsAfterCloudCall).error
        ≠ Option.none) :=
  stream_explicit_fail_preserves_stats baseEnv ModelOption.nano statsAfterCloudCall
    (by decide) (Or.inl rfl)

/-- Environment for the C8 counterexample: explicit ChatGPT 4o mini, online
with a key, whose stream throws before yielding anything. -/
def envCloudThrowsEarly : Env :=
  { baseEnv with onLine := true, hasKey := true, cloudStream := errStream [] "boom" }

/-- C8 counterexample: the claim says lastBackendUsed is set exactly when the
first fragment of a successful stream is about to be yielded and is never
updated to a backend that produces no fragment for the call; in the code the
provider tag is assigned before the backend stream is invoked, so a call in
which the cloud stream throws before its first fragment still ends with
provider = cloud-api and zero fragments. -/
theorem lastBackendUsed_speculative_cex :
    (stream envCloudThrowsEarly (Option.some ModelOption.gpt4oMini) initStats).fragments = []
    ∧ (stream envCloudThrowsEarly (Option.some ModelOption.gpt4oMini) initStats).stats.provider
        = Provider.cloudApi
    ∧ (stream envCloudThrowsEarly (Option.some ModelOption.gpt4oMini) initStats).error
        ≠ Option.none := by
  refine ⟨rfl, rfl, ?_⟩
  decide

/-- C8 amended: lastBackendUsed is set when a backend is selected,
immediately before its generation is invoked — speculatively: whatever the
cloud stream then does (including yielding no fragment and throwing), an
explicit cloud-model call that passes the online and key preconditions ends
with the provider tag of that backend. -/
theorem lastBackendUsed_set_on_selection (env : Env) (s : LLMProviderStats)
    (ho : env.onLine = true) (hk : env.hasKey = true) :
    (stream env (Option.some ModelOption.gpt4oMini) s).stats.provider = Provider.cloudApi
    ∧ (stream env (Option.some ModelOption.claudeCode) s).stats.provider
        = Provider.claudeApi := by
  cases hce : env.cloudStream.error with
  | none =>
    constructor <;> simp [stream, streamGpt4oMini, streamClaudeCode, ho, hk, hce]
  | some e =>
    constructor <;> simp [stream, streamGpt4oMini, streamClaudeCode, ho, hk, hce]

/-- Witness for the amended C8 theorem at the zero-fragment failure
environment. -/
theorem lastBackendUsed_set_on_selection_witness :
    ((stream envCloudThrowsEarly (Option.some ModelOption.gpt4oMini) initStats).stats.provider
        = Provider.cloudApi
      ∧ (stream envCloudThrowsEarly (Option.some ModelOption.claudeCode) initStats).stats.provider
        = Provider.claudeApi) :=
  lastBackendUsed_set_on_selection envCloudThrowsEarly initStats rfl rfl

/-- Outcome required by claim C5 of a run that is online without a key: the
cloud generation is never invoked, no cloud failure entry is ever recorded,
and if the run ends in an error then the skip entry was recorded, the thrown
message is the fixed no-key aggregate message and that message shows the
cloud tier as skipped for lack of a key. -/
def noKeySkipOutcome (r : StreamResult) : Prop :=
  BackendEvent.genCloud ∉ r.events
  ∧ (∀ e, cloudFailMsg e ∉ r.recorded)
  ∧ ∀ msg, r.error = Option.some msg →
      cloudSkipMsg ∈ r.recorded
      ∧ msg = aggregateErrorMsg Option.none true false
      ∧ ∃ a b, msg = a ++ ("⏭️ Skipped (no API key provided)" ++ b)

set_option maxRecDepth 4096 in
/-- The no-key aggregate message contains the skipped-for-lack-of-key line. -/
theorem skip_line_decomp :
    ∃ a b, aggregateErrorMsg Option.none true false
      = a ++ ("⏭️ Skipped (no API key provided)" ++ b) :=
  ⟨"No LLM provider available. All providers failed.\n\n**Tried (in order):**\n1. Gemini Nano (Android 14+ with AICore) - ❌ Not available\n2. Llama Local (Android 7+) - ❌ Not available\n3. Cloud API (ChatGPT/Claude Code) - ",
   "\n\n💡 **Solution:** Set API key using 🔑 button to enable Cloud API fallback (ChatGPT 4o mini or Claude Code).\n**To fix:** Install Gemini Nano (Android 14+) or Llama Local model, or set API key for Cloud API (ChatGPT 4o mini or Claude Code).",
   rfl⟩

/-- Reduction of the cloud stage when the device is online without a key. -/
theorem cloudStage_noKey (env : Env) (frags : List String)
    (evs : List BackendEvent) (recorded : List String) (s : LLMProviderStats)
    (ho : env.onLine = true) (hk : env.hasKey = false) :
    cloudStage env frags evs recorded s =
      { fragments := frags
        error := Option.some (aggregateErrorMsg Option.none true false)
        stats := { provider := Provider.none }
        events := evs
        recorded := recorded ++ [cloudSkipMsg] } := by
  simp [cloudStage, allFailedStage, ho, hk]

/-- The llama stage of a no-key online run satisfies the C5 outcome whenever
the events and reasons accumulated so far do. -/
theorem llamaStage_noKey (env : Env) (frags : List String)
    (evs : List BackendEvent) (recorded : List String) (s : LLMProviderStats)
    (ho : env.onLine = true) (hk : env.hasKey = false)
    (hev : BackendEvent.genCloud ∉ evs)
    (hrec : ∀ e, cloudFailMsg e ∉ recorded) :
    noKeySkipOutcome (llamaStage env frags evs recorded s) := by
  cases hla : env.llamaAvailable with
  | ok b =>
    cases b with
    | true =>
      cases hle : env.llamaStream.error with
      | none =>
        refine ⟨?_, ?_, ?_⟩
        · simp [llamaStage, hla, hle, hev]
        · intro e
          simpa [llamaStage, hla, hle] using hrec e
        · intro msg hmsg
          simp [llamaStage, hla, hle] at hmsg
      | some e =>
        rw [show llamaStage env frags evs recorded s =
            cloudStage env (frags ++ env.llamaStream.fragments)
              (evs ++ [BackendEvent.checkLlama, BackendEvent.genLlama])
              (recorded ++ ["Llama Local: " ++ e])
              { provider := Provider.llamaLocal
                fallbackReason := Option.some ("Llama Local: " ++ e)
                model := Option.some ModelOption.auto }
            from by simp [llamaStage, hla, hle, appendReason]]
        rw [cloudStage_noKey env _ _ _ _ ho hk]
        refine ⟨?_, ?_, ?_⟩
        · simp [hev]
        · intro f
          simp [hrec f, cloudFail_ne_llama f e, (cloudSkip_ne_fail f).symm]
        · intro msg hmsg
          obtain rfl : msg = aggregateErrorMsg Option.none true false := by
            simpa using hmsg.symm
          exact ⟨by simp [cloudSkipMsg], rfl, skip_line_decomp⟩
    | false =>
      rw [show llamaStage env frags evs recorded s =
          cloudStage env frags (evs ++ [BackendEvent.checkLlama]) recorded s
          from by simp [llamaStage, hla]]
      rw [cloudStage_noKey env _ _ _ _ ho hk]
      refine ⟨?_, ?_, ?_⟩
      · simp [hev]
      · intro f
        simp [hrec f, (cloudSkip_ne_fail f).symm]
      · intro msg hmsg
        obtain rfl : msg = aggregateErrorMsg Option.none true false := by
          simpa using hmsg.symm
        exact ⟨by simp [cloudSkipMsg], rfl, skip_line_decomp⟩
  | error e =>
    rw [show llamaStage env frags evs recorded s =
        cloudStage env frags (evs ++ [BackendEvent.checkLlama])
          (recorded ++ ["Llama Local: " ++ e])
          { s with fallbackReason :=
              Option.some (appendReason s.fallbackReason ("Llama Local: " ++ e)) }
        from by simp [llamaStage, hla]]
    rw [cloudStage_noKey env _ _ _ _ ho hk]
    refine ⟨?_, ?_, ?_⟩
    · simp [hev]
    · intro f
      simp [hrec f, cloudFail_ne_llama f e, (cloudSkip_ne_fail f).symm]
    · intro msg hmsg
      obtain rfl : msg = aggregateErrorMsg Option.none true false := by
        simpa using hmsg.symm
      exact ⟨by simp [cloudSkipMsg], rfl, skip_line_decomp⟩

/-- C5: in auto mode, online without a caller-supplied key, the cloud tier is
never invoked; the skip is recorded with skip wording (never with the Cloud
API failure wording), and when every tier is exhausted the aggregate message
shows the cloud tier as skipped for lack of a key; the skip wording and the
failure wording are distinct strings. -/
theorem autoStream_skips_cloud_without_key (env : Env) (s : LLMProviderStats)
    (ho : env.onLine = true) (hk : env.hasKey = false) :
    noKeySkipOutcome (autoStream env s)
    ∧ ∀ e, cloudSkipMsg ≠ cloudFailMsg e := by
  refine ⟨?_, cloudSkip_ne_fail⟩
  cases hnat : env.isNativePlatform with
  | false =>
    rw [show autoStream env s = llamaStage env [] [] [] s from by
      simp [autoStream, hnat]]
    exact llamaStage_noKey env [] [] [] s ho hk (by simp) (by simp)
  | true =>
    cases hga : env.geminiAvailable with
    | ok b =>
      cases b with
      | true =>
        cases hge : env.geminiStream.error with
        | none =>
          refine ⟨?_, ?_, ?_⟩
          · simp [autoStream, hnat, hga, hge]
          · intro e
            simp [autoStream, hnat, hga, hge]
          · intro msg hmsg
            simp [autoStream, hnat, hga, hge] at hmsg
        | some e =>
          rw [show autoStream env s = llamaStage env env.geminiStream.fragments
              [BackendEvent.checkGemini, BackendEvent.genGemini]
              ["Gemini Nano: " ++ e]
              { provider := Provider.geminiNano
                fallbackReason := Option.some ("Gemini Nano: " ++ e)
                model := Option.some ModelOption.auto }
              from by simp [autoStream, hnat, hga, hge]]
          refine llamaStage_noKey env _ _ _ _ ho hk (by simp) ?_
          intro f
          simp [cloudFail_ne_gem f e]
      | false =>
        rw [show autoStream env s = llamaStage env [] [BackendEvent.checkGemini] [] s
            from by simp [autoStream, hnat, hga]]
        exact llamaStage_noKey env _ _ _ _ ho hk (by simp) (by simp)
    | error e =>
      rw [show autoStream env s = llamaStage env [] [BackendEvent.checkGemini]
          ["Gemini Nano: " ++ e]
          { s with fallbackReason := Option.some ("Gemini Nano: " ++ e) }
          from by simp [autoStream, hnat, hga]]
      refine llamaStage_noKey env _ _ _ _ ho hk (by simp) ?_
      intro f
      simp [cloudFail_ne_gem f e]

/-- Online environment with no key and nothing else available. -/
def envNoKey : Env := { baseEnv with onLine := true }

/-- Witness for claim C5 at a concrete online, key-less environment. -/
theorem autoStream_skips_cloud_without_key_witness :
    noKeySkipOutcome (autoStream envNoKey initStats)
    ∧ ∀ e, cloudSkipMsg ≠ cloudFailMsg e :=
  autoStream_skips_cloud_without_key envNoKey initStats rfl rfl

/-- Environment where all three tiers fail with specific reasons: both local
probes throw and the cloud stream throws before its first fragment. -/
def envAllFail : Env :=
  { baseEnv with
    isNativePlatform := true
    geminiAvailable := Except.error "AICore crash"
    llamaAvailable := Except.error "model corrupt"
    onLine := true
    hasKey := true
    cloudStream := errStream [] "HTTP 500" }

/-- Same environment with different failure reasons everywhere. -/
def envAllFail2 : Env :=
  { envAllFail with
    geminiAvailable := Except.error "nano exploded"
    llamaAvailable := Except.error "llama missing"
    cloudStream := errStream [] "server 503" }

/-- C6 (code bug exhibit): when every tier fails with a specific reason, the
call does record the three specific reasons in order, and raises a single
aggregate error before any fragment — but the code resets the stats object
before composing the message, so the thrown message is a constant that is
independent of the recorded reasons (identical for completely different
failure reasons), opens with the dead fallback text All providers failed, and
shows the two local tiers as Not available rather than with their
failed-reasons; the three tier names themselves do appear. -/
theorem aggregate_error_drops_reasons :
    (autoStream envAllFail initStats).error
      = Option.some (aggregateErrorMsg Option.none true true)
    ∧ (autoStream envAllFail initStats).recorded
      = ["Gemini Nano: AICore crash", "Llama Local: model corrupt",
         "Cloud API: HTTP 500"]
    ∧ (autoStream envAllFail initStats).fragments = []
    ∧ (autoStream envAllFail initStats).error = (autoStream envAllFail2 initStats).error
    ∧ (∃ a b, aggregateErrorMsg Option.none true true = a ++ ("Gemini Nano" ++ b))
    ∧ (∃ a b, aggregateErrorMsg Option.none true true = a ++ ("Llama Local" ++ b))
    ∧ (∃ a b, aggregateErrorMsg Option.none true true = a ++ ("Cloud API" ++ b))
    ∧ (∃ a b, aggregateErrorMsg Option.none true true
        = a ++ ("All providers failed" ++ b)) := by
  refine ⟨rfl, rfl, rfl, rfl, ?_, ?_, ?_, ?_⟩
  · exact ⟨"No LLM provider available. All providers failed.\n\n**Tried (in order):**\n1. ",
      " (Android 14+ with AICore) - ❌ Not available\n2. Llama Local (Android 7+) - ❌ Not available\n3. Cloud API (ChatGPT/Claude) - ❌ Failed\n\n**To fix:** Install Gemini Nano (Android 14+) or Llama Local model, or set API key for Cloud API (ChatGPT 4o mini or Claude Code).",
      rfl⟩
  · exact ⟨"No LLM provider available. All providers failed.\n\n**Tried (in order):**\n1. Gemini Nano (Android 14+ with AICore) - ❌ Not available\n2. ",
      " (Android 7+) - ❌ Not available\n3. Cloud API (ChatGPT/Claude) - ❌ Failed\n\n**To fix:** Install Gemini Nano (Android 14+) or Llama Local model, or set API key for Cloud API (ChatGPT 4o mini or Claude Code).",
      rfl⟩
  · exact ⟨"No LLM provider available. All providers failed.\n\n**Tried (in order):**\n1. Gemini Nano (Android 14+ with AICore) - ❌ Not available\n2. Llama Local (Android 7+) - ❌ Not available\n3. ",
      " (ChatGPT/Claude) - ❌ Failed\n\n**To fix:** Install Gemini Nano (Android 14+) or Llama Local model, or set API key for Cloud API (ChatGPT 4o mini or Claude Code).",
      rfl⟩
  · exact ⟨"No LLM provider available. ",
      ".\n\n**Tried (in order):**\n1. Gemini Nano (Android 14+ with AICore) - ❌ Not available\n2. Llama Local (Android 7+) - ❌ Not available\n3. Cloud API (ChatGPT/Claude) - ❌ Failed\n\n**To fix:** Install Gemini Nano (Android 14+) or Llama Local model, or set API key for Cloud API (ChatGPT 4o mini or Claude Code).",
      rfl⟩

/-- Context of the C7 counterexample: no current photo, an allVisits table
that is present but contributes no photo, and a latest record with photo P2. -/
def ctxNoPhotoHistory : Option VisitContext :=
  Option.some
    { current := Option.none
      allVisits := Option.some [{ photo_data := Option.none }]
      latest := Option.some { photo_data := Option.some "P2" } }

/-- C7 counterexample: the claim says latestRecord.photo_data is used as a
fallback only when allRecords is absent; in the code the fallback condition
is that the image list is still empty, so with allRecords present but
photo-less the code still falls back to the latest photo, where the claim's
reading of the list yields no image at all. -/
theorem extractImages_latest_fallback_cex :
    extractImageDataUrls ctxNoPhotoHistory = ["P2"]
    ∧ specImageRefsC7 ctxNoPhotoHistory = []
    ∧ extractImageDataUrls ctxNoPhotoHistory ≠ specImageRefsC7 ctxNoPhotoHistory := by
  refine ⟨rfl, rfl, ?_⟩
  decide

/-- Pushing one optional current photo on the empty list never duplicates. -/
theorem nodup_pushTruthy_nil (x : Option String) : (pushTruthy [] x).Nodup := by
  cases x with
  | none => simp [pushTruthy]
  | some p =>
    cases hp : p.isEmpty with
    | true => simp [pushTruthy, hp]
    | false => simp [pushTruthy, hp]

/-- One step of the saved-visit photo loop preserves the no-duplicates
invariant: a photo is appended only when not already contained. -/
theorem nodup_pushVisitPhoto (acc : List String) (x : Option String)
    (h : acc.Nodup) : (pushVisitPhoto acc x).Nodup := by
  cases x with
  | none => simpa [pushVisitPhoto] using h
  | some p =>
    cases hp : p.isEmpty with
    | true => simpa [pushVisitPhoto, hp] using h
    | false =>
      cases hc : acc.contains p with
      | true =>
        have hpm : p ∈ acc := List.elem_iff.mp
          (by rw [show acc.elem p = acc.contains p from rfl, hc])
        simpa [pushVisitPhoto, hp, hc, hpm] using h
      | false =>
        have hpm : p ∉ acc := by
          intro hmem
          rw [← List.elem_iff] at hmem
          rw [show acc.elem p = acc.contains p from rfl, hc] at hmem
          exact Bool.noConfusion hmem
        simp [pushVisitPhoto, hp, hc, List.nodup_append, h, hpm]

/-- The saved-visit photo loop preserves the no-duplicates invariant. -/
theorem nodup_foldl_pushVisitPhoto (vs : List VisitEntry) (acc : List String)
    (h : acc.Nodup) :
    (vs.foldl (fun a v => pushVisitPhoto a v.photo_data) acc).Nodup := by
  induction vs generalizing acc with
  | nil => exact h
  | cons v vs ih => exact ih _ (nodup_pushVisitPhoto acc v.photo_data h)

/-- The embedded image extraction agrees everywhere with the amended
description of claim C7. -/
theorem extractImageDataUrls_eq_amended (ctx : Option VisitContext) :
    extractImageDataUrls ctx = specImageRefsC7Amended ctx := by
  unfold extractImageDataUrls specImageRefsC7Amended
  cases hall : ctx.bind fun c => c.allVisits with
  | none =>
    cases hbase : pushTruthy []
        ((ctx.bind fun c => c.current).bind fun cur => cur.photo) with
    | nil => simp [hall, hbase]
    | cons a l => simp [hall, hbase]
  | some vs =>
    cases hfold : vs.foldl (fun acc v => pushVisitPhoto acc v.photo_data)
        (pushTruthy [] ((ctx.bind fun c => c.current).bind fun cur => cur.photo)) with
    | nil => simp [hall, hfold]
    | cons a l => simp [hall, hfold]

/-- The embedded image extraction never produces a duplicate reference. -/
theorem extractImageDataUrls_nodup (ctx : Option VisitContext) :
    (extractImageDataUrls ctx).Nodup := by
  unfold extractImageDataUrls
  have hbase : (pushTruthy []
      ((ctx.bind fun c => c.current).bind fun cur => cur.photo)).Nodup :=
    nodup_pushTruthy_nil _
  cases hall : ctx.bind fun c => c.allVisits with
  | none =>
    cases hbase2 : pushTruthy []
        ((ctx.bind fun c => c.current).bind fun cur => cur.photo) with
    | nil => simp [hall, hbase2, nodup_pushTruthy_nil]
    | cons a l =>
      simp only [hall, hbase2]
      simpa [hbase2] using hbase
  | some vs =>
    have hf := nodup_foldl_pushVisitPhoto vs _ hbase
    cases hfold : vs.foldl (fun acc v => pushVisitPhoto acc v.photo_data)
        (pushTruthy [] ((ctx.bind fun c => c.current).bind fun cur => cur.photo)) with
    | nil => simp [hall, hfold, nodup_pushTruthy_nil]
    | cons a l =>
      simp only [hall, hfold]
      simpa [hfold] using hf

/-- Context of the concrete C7 example: current photo P0 and a history whose
photos are P1 and P0. -/
def ctxExampleP0P1 : Option VisitContext :=
  Option.some
    { current := Option.some { photo := Option.some "P0" }
      allVisits := Option.some
        [{ photo_data := Option.some "P1" }, { photo_data := Option.some "P0" }]
      latest := Option.none }

/-- C7 amended: the image list is deduplicated by string value, ordered with
the current photo first and then the photos of allRecords in list order, and
the latest photo is used as a fallback exactly when the list is still empty
after those two steps (even when allRecords is present but contributed no
photo); on the concrete example of the claim the list is P0 then P1. -/
theorem extractImageDataUrls_spec :
    (∀ ctx, extractImageDataUrls ctx = specImageRefsC7Amended ctx
      ∧ (extractImageDataUrls ctx).Nodup)
    ∧ extractImageDataUrls ctxExampleP0P1 = ["P0", "P1"] :=
  ⟨fun ctx => ⟨extractImageDataUrls_eq_amended ctx, extractImageDataUrls_nodup ctx⟩,
   rfl⟩

end FarmVisit
